import Mathlib

/-!
Verification of the `azure-auth` client library (`src/lib/auth.js`, the
`AuthContext` IIFE) against its natural-language specification.

The JavaScript is shallowly embedded: every method becomes a Lean function
from its explicit inputs (configuration, the browser storage contents, the
parsed redirect fragment, random draws, the current epoch time) to a result
record collecting the return/throw outcome and the observable effects
(storage writes, XMLHttpRequest POSTs, callback invocations, navigations).
JavaScript `undefined`/`null` string values are `Option String`; a thrown
exception is a `threw` outcome carrying the JS error kind.
-/

namespace AzureAuth

/-- A JavaScript exception: `ReferenceError`, `TypeError`, or a thrown
`new Error(msg)`. -/
inductive JsError where
  | refError (msg : String)
  | typeError (msg : String)
  | jsErr (msg : String)
deriving DecidableEq

/-- A JavaScript value as passed to the user callback. -/
inductive JsVal where
  | vnull
  | vundef
  | vfalse
  | vstr (s : String)
deriving DecidableEq

/-- The browser key/value store (`localStorage`/`sessionStorage`):
a list of key/value pairs, first binding wins. -/
abbrev Storage := List (String × String)

/-- `storage.getItem(key)`: the stored string, or `null` (`none`) if absent. -/
def sget (s : Storage) (k : String) : Option String := s.lookup k

/-- Remove every binding of a key (`removeItem`). -/
def sremoveKey (s : Storage) (k : String) : Storage :=
  s.filter (fun p => p.1 ≠ k)

/-- `storage.setItem(key, value)`. -/
def sset (s : Storage) (k v : String) : Storage := (k, v) :: sremoveKey s k

/-- Apply a list of `setItem` writes in order. -/
def applyWrites (s : Storage) (ws : List (String × String)) : Storage :=
  ws.foldl (fun st p => sset st p.1 p.2) s

/-- JS string coercion of a possibly-`undefined` value, as performed by
`setItem`/`getItem` on a non-string argument. -/
def jsStringOfOpt : Option String → String
  | none => "undefined"
  | some s => s

/-- JS falsy test `!x` on a possibly-absent string: true for
`undefined`/`null` and for the empty string. -/
def isFalsyStr : Option String → Bool
  | none => true
  | some s => s.data == []

/-- `String.prototype.trim`: strip leading and trailing whitespace. -/
def jsTrim (s : String) : String :=
  String.mk (((s.data.dropWhile Char.isWhitespace).reverse.dropWhile
    Char.isWhitespace).reverse)

/-- The constructor's blank test `!x || x.trim().length == 0`. -/
def isBlankStr : Option String → Bool
  | none => true
  | some s => s.data == [] || (jsTrim s).data.length == 0

/-- `x || y` on an optional string versus a string default. -/
def jsOr (x : Option String) (y : String) : String :=
  if isFalsyStr x then y else x.getD y

/-! ## Storage key constants (`this.CONSTANTS.STORAGE`, lines 73-82) -/

def STATE_LOGIN : String := "azure.state.login"
def NONCE_IDTOKEN : String := "azure.nonce.idtoken"
def LOGIN_REQUEST : String := "azure.login.request"
def ERROR_KEY : String := "azure.error"
def ERROR_DESCRIPTION_KEY : String := "azure.error.description"
def USER_TOKEN : String := "user_token"
def USER_OBJ : String := "user_obj"
def TOKEN_EXPIRATION : String := "token_exp"

/-- The keys of `this.CONSTANTS.STORAGE` in object-literal (for-in) order. -/
def storageKeyNames : List String :=
  [STATE_LOGIN, NONCE_IDTOKEN, LOGIN_REQUEST, ERROR_KEY, ERROR_DESCRIPTION_KEY,
   USER_TOKEN, USER_OBJ, TOKEN_EXPIRATION]

/-! ## Configuration and construction (lines 50-158) -/

/-- The configuration object passed to the constructor; each field is
`none` when the property is absent (`undefined`).  A `null` config is
replaced by `\x7b\x7d` at line 96, which this structure represents with all
fields `none`. -/
structure AuthConfig where
  azureTenant : Option String
  azureAppID : Option String
  authorizationServiceLoginUri : Option String
  authorizationServiceRenewUri : Option String
  azureInstance : Option String
  azureLoginRedirectUri : Option String
  azureLogoutRedirectUri : Option String
  cacheLocation : Option String
  authorizationContexts : Option (List String)
deriving DecidableEq

/-- Which browser store was selected at construction. -/
inductive StorageKind where
  | localS
  | sessionS
deriving DecidableEq

/-- The fields of an `AuthContext` instance that the constructor assigns
(beyond the constant enums).  `storageKind` is `none` until the storage
setup at lines 144-157 runs. -/
structure Inst where
  config : AuthConfig
  actionInProgress : Bool
  instanceUrl : Option String
  storageKind : Option StorageKind
deriving DecidableEq

/-- The pieces of browser state the constructor reads. -/
structure Window where
  href : String
  localStorageSupported : Bool
  sessionStorageSupported : Bool
deriving DecidableEq

/-- First component of `s.split(c)`: the prefix of `s` before the first
occurrence of `c` (all of `s` when `c` does not occur). -/
def splitFirst (s : String) (c : Char) : String :=
  String.mk (s.data.takeWhile (fun d => d ≠ c))

/-- `window.location.href.split("?")[0].split("#")[0]` (lines 127, 132). -/
def stripQueryAndHash (href : String) : String :=
  splitFirst (splitFirst href '?') '#'

/-- Line 117 default. -/
def defaultAzureInstance : String := "https://login.microsoftonline.com/"

/-- Result of `new AuthContext(cfg)`. -/
inductive CtorResult where
  | returned (i : Inst)
  | threw (e : JsError)
deriving DecidableEq

/-- Outcome of a construction: the returned instance or thrown error, the
new value of `AuthContext.prototype._singleton`, and the storage operations
performed (the probe at lines 550-560/568-578 would appear here). -/
structure ConstructOutcome where
  result : CtorResult
  singleton : Option Inst
  storageOps : List String
deriving DecidableEq

/-- The `AuthContext` constructor, lines 50-158.

Control flow: the singleton check (lines 89-92) runs before anything else;
on a first construction the instance is registered, `this.config` and
`this._actionInProgress` are set (lines 96-97), the four required fields
are validated (lines 100-114, throwing `new Error(...)`), defaults are
applied for the instance URL, both redirect URIs and the cache location
(lines 116-138), and then line 140 evaluates
`this.config.hasOwnProperty(logoutGlobalAzure)` where `logoutGlobalAzure`
is an undeclared identifier: every run that reaches line 140 throws a
`ReferenceError`, so the storage setup at lines 144-157 (and its probe) is
unreachable.  Because the constructor mutates the already-registered
singleton object in place, the registered instance reflects all field
updates made before the throw. -/
def construct (cfg : AuthConfig) (singleton : Option Inst) (w : Window) :
    ConstructOutcome :=
  match singleton with
  | some inst => ⟨.returned inst, some inst, []⟩
  | none =>
    -- partially initialized instance visible in the singleton slot if a
    -- validation check throws: config and actionInProgress already set
    let halfInit : AuthConfig → Inst := fun c => ⟨c, false, none, none⟩
    if isBlankStr cfg.azureTenant then
      ⟨.threw (.jsErr "Tenant must be defined"), some (halfInit cfg), []⟩
    else if isBlankStr cfg.azureAppID then
      ⟨.threw (.jsErr "An App Id must be supplied"), some (halfInit cfg), []⟩
    else if isFalsyStr cfg.authorizationServiceLoginUri then
      ⟨.threw (.jsErr "Authorization Service login endpoint is required"),
        some (halfInit cfg), []⟩
    else if isFalsyStr cfg.authorizationServiceRenewUri then
      ⟨.threw (.jsErr "Authorization Service renew endpoint is required"),
        some (halfInit cfg), []⟩
    else
      let c1 := if isBlankStr cfg.azureInstance then
          { cfg with azureInstance := some defaultAzureInstance } else cfg
      -- line 120: `if (this.config.azureInstance) this.instance = ...`
      let inst1 := if isFalsyStr c1.azureInstance then none else c1.azureInstance
      let c2 := if isFalsyStr c1.azureLoginRedirectUri then
          { c1 with azureLoginRedirectUri := some (stripQueryAndHash w.href) } else c1
      let c3 := if isFalsyStr c2.azureLogoutRedirectUri then
          { c2 with azureLogoutRedirectUri := some (stripQueryAndHash w.href) } else c2
      let c4 := if isBlankStr c3.cacheLocation then
          { c3 with cacheLocation := some "localStorage" } else c3
      -- line 140: `this.config.hasOwnProperty(logoutGlobalAzure)` reads the
      -- undeclared identifier `logoutGlobalAzure` and throws a ReferenceError
      ⟨.threw (.refError "logoutGlobalAzure is not defined"),
        some ⟨c4, false, inst1, none⟩, []⟩

/-! ## getToken (lines 311-313) -/

/-- `getToken()`: `this._get(this.CONSTANTS.STORAGE.USER_TOKEN)`. -/
def getToken (s : Storage) : Option String := sget s USER_TOKEN

/-! ## logout (lines 339-355) -/

/-- Outcome of a method that returns no value. -/
inductive MethodOutcome where
  | normal
  | threw (e : JsError)
deriving DecidableEq

/-- `this.STORAGE`: `AuthContext` instances have no `STORAGE` property
(the key table lives at `this.CONSTANTS.STORAGE`), so the read at line 343
yields `undefined`. -/
def instSTORAGE : Option Storage := none

/-- One step of the purge loop per key of the store table, or the thrown
error.  Line 343 executes `this._purge(this.STORAGE['key'])`: indexing the
`undefined` value `this.STORAGE` with the literal string `'key'` throws a
`TypeError` on the first iteration. -/
def logoutPurgeLoop : List String → Storage → Except JsError Storage
  | [], s => .ok s
  | _key :: rest, s =>
    match instSTORAGE with
    | none => .error (.typeError "Cannot read properties of undefined (reading 'key')")
    | some o => logoutPurgeLoop rest (sremoveKey s (jsStringOfOpt (sget o "key")))

/-- Result of `logout(callback)`. -/
structure LogoutResult where
  storage : Storage
  result : MethodOutcome
  callbackCalls : List (JsVal × JsVal)
  navs : List String
deriving DecidableEq

/-- `logout(callback)`, lines 339-355: the for-in purge loop over
`this.CONSTANTS.STORAGE`, then the optional global-logout prompt (line 349
calls `this.promptUser`, another undefined member), then the callback with
`(null, null)`.  The loop throws on its first iteration, so the rest of
the body never runs. -/
def logout (logoutGlobalAzure hasCallback : Bool) (s : Storage) : LogoutResult :=
  match logoutPurgeLoop storageKeyNames s with
  | .error e => ⟨s, .threw e, [], []⟩
  | .ok s2 =>
    if logoutGlobalAzure then
      -- line 349: `this.promptUser` is not a function (the method is `_prompt`)
      ⟨s2, .threw (.typeError "this.promptUser is not a function"), [], []⟩
    else if hasCallback then ⟨s2, .normal, [(JsVal.vnull, JsVal.vnull)], []⟩
    else ⟨s2, .normal, [], []⟩

/-! ## URL building and login (lines 274-292, 457-463, 472-501) -/

/-- Upper-case hex digit, used by percent-encoding. -/
def hexDigitUpper (n : Nat) : Char :=
  if n < 10 then Char.ofNat (48 + n) else Char.ofNat (55 + n)

/-- Characters `encodeURIComponent` leaves unescaped. -/
def isUriUnreserved (c : Char) : Bool :=
  c.isAlphanum || c = '-' || c = '_' || c = '.' || c = '!' || c = '~' ||
  c = '*' || c = Char.ofNat 39 || c = '(' || c = ')'

/-- Percent-encode the UTF-8 bytes of one character. -/
def percentEncodeChar (c : Char) : String :=
  String.mk (((String.mk [c]).toUTF8.toList).foldr
    (fun b acc => '%' :: hexDigitUpper (b.toNat / 16) :: hexDigitUpper (b.toNat % 16) :: acc) [])

/-- `encodeURIComponent`. -/
def encodeURIComponent (s : String) : String :=
  String.join (s.data.map (fun c =>
    if isUriUnreserved c then String.mk [c] else percentEncodeChar c))

/-- The `params` argument of `_generateAzureLoginURL` (each field `none`
when the property is absent). -/
structure UrlParams where
  azureAppID : Option String
  azureLoginRedirectUri : Option String
  state : Option String
  slice : Option String
  additionalQueryParameter : Option String
  azureRequestId : Option String
deriving DecidableEq

/-- Result of `_generateAzureLoginURL`. -/
inductive UrlOutcome where
  | built (url : String)
  | threw (e : JsError)
deriving DecidableEq

/-- `_generateAzureLoginURL(responseType, params, resource)`, lines
472-501.  When `params` is `null` — which is how `login()` always calls it
(line 288) — evaluating `params.azureAppID` at line 476 throws a
`TypeError`.  When `params` is an object but `params.azureRequestId` is
absent, line 492 calls `this._guid()`, which is not a function (the
generator is named `_uuid`), another `TypeError`. -/
def generateAzureLoginURL (instanceUrl tenant responseType : String)
    (params : Option UrlParams) (resource : Option String) : UrlOutcome :=
  match params with
  | none => .threw (.typeError "Cannot read properties of null (reading 'azureAppID')")
  | some p =>
    let buffer := ["?response_type=" ++ responseType,
      "client_id=" ++ encodeURIComponent (jsStringOfOpt p.azureAppID)]
    let buffer := buffer ++
      (if isFalsyStr resource then []
       else ["resource=" ++ encodeURIComponent (jsStringOfOpt resource)])
    let buffer := buffer ++
      ["redirect_uri=" ++ encodeURIComponent (jsStringOfOpt p.azureLoginRedirectUri),
       "state=" ++ encodeURIComponent (jsStringOfOpt p.state)]
    let buffer := buffer ++
      (match p.slice with
       | some sl => ["slice=" ++ encodeURIComponent sl]
       | none => [])
    let buffer := buffer ++
      (match p.additionalQueryParameter with
       | some q => [q]
       | none => [])
    match p.azureRequestId with
    | none => .threw (.typeError "this._guid is not a function")
    | some rid =>
      let buffer := buffer ++ ["client-request-id=" ++ encodeURIComponent rid]
      let qs := String.intercalate "&" buffer
      .built (instanceUrl ++ tenant ++ "/oauth2/authorize" ++ qs)

/-- The five `_store` writes performed by `login()` at lines 283-287. -/
def loginWrites (startPage : Option String) (href uuid1 uuid2 : String) :
    List (String × String) :=
  [(LOGIN_REQUEST, jsOr startPage href),
   (STATE_LOGIN, uuid1),
   (NONCE_IDTOKEN, uuid2),
   (ERROR_KEY, ""),
   (ERROR_DESCRIPTION_KEY, "")]

/-- Result of `login(startPage)`. -/
structure LoginResult where
  actionInProgress : Bool
  storage : Storage
  writes : List (String × String)
  navs : List String
  result : MethodOutcome
deriving DecidableEq

/-- `login(startPage)`, lines 274-292.  The two `_uuid()` draws are passed
in explicitly (`uuid1` becomes the CSRF state, `uuid2` the nonce).  If
`_actionInProgress` is set the call returns immediately; otherwise it
persists the five values and then calls
`this._generateAzureLoginURL('id_token', null)` (line 288), whose `null`
`params` argument makes it throw before `_actionInProgress` is set at line
289 and before `_prompt` navigates at line 291. -/
def login (instanceUrl tenant : String) (startPage : Option String)
    (uuid1 uuid2 : String) (actionInProgress : Bool) (s : Storage)
    (href : String) : LoginResult :=
  if actionInProgress then ⟨actionInProgress, s, [], [], .normal⟩
  else
    let writes := loginWrites startPage href uuid1 uuid2
    let s2 := applyWrites s writes
    match generateAzureLoginURL instanceUrl tenant "id_token" none none with
    | .threw e => ⟨false, s2, writes, [], .threw e⟩
    | .built url =>
      let urlNavigate := url ++ "&nonce=" ++ encodeURIComponent uuid2
      ⟨true, s2, writes, [urlNavigate], .normal⟩

/-! ## renew (lines 229-268) -/

/-- An XMLHttpRequest POST issued by the library: target URL and the JSON
body fields.  A `none` `authorizationToken` models the `undefined` value,
which `JSON.stringify` drops from the serialized body. -/
structure Post where
  url : String
  authorizationToken : Option String
  contexts : Option (List String)
deriving DecidableEq

/-- `this.CONSTANTS.USER_TOKEN` (line 238): the `CONSTANTS` object has no
top-level `USER_TOKEN` property — the key lives at
`CONSTANTS.STORAGE.USER_TOKEN` — so the read yields `undefined`. -/
def CONSTANTS_USER_TOKEN : Option String := none

/-- Result of `renew(callback)`. -/
structure RenewResult where
  actionInProgress : Bool
  callbackCalls : List (JsVal × JsVal)
  posts : List Post
  result : MethodOutcome
deriving DecidableEq

/-- `renew(callback)`, lines 229-268, with a valid callback supplied (an
absent callback throws at lines 231-233 before anything else).  Sets
`_actionInProgress` to true, reads the token from storage under the key
`this.CONSTANTS.USER_TOKEN` — which is `undefined`, so `getItem` looks up
the literal key string `"undefined"` — invokes the callback with an error
when that lookup is falsy (without returning), and then evaluates
`this._config.urls.renew` at line 250.  `this._config` is never assigned
(the configuration lives at `this.config`), so a `TypeError` is thrown
before the `XMLHttpRequest` at lines 256-267 is ever created: no POST is
issued on any input. -/
def renew (s : Storage) : RenewResult :=
  let token := sget s (jsStringOfOpt CONSTANTS_USER_TOKEN)
  let calls :=
    if isFalsyStr token then [(JsVal.vstr "authorization token not found", JsVal.vnull)]
    else []
  ⟨true, calls, [], .threw (.typeError "Cannot read properties of undefined (reading 'urls')")⟩

/-! ## authorize (lines 166-223) and _getRequestInfo (lines 380-415)

`authorize` first normalizes `window.location.hash` (`_getHash`) and
deserializes it into a plain object (`_deserialize`); the embedding starts
from that parsed object, a string-to-string map. -/

/-- The deserialized redirect fragment: a map from field name to string
value (`_deserialize` output, last write wins — modelled with first
binding winning over a deduplicated list). -/
abbrev FragmentObj := List (String × String)

/-- `obj.hasOwnProperty(k)`. -/
def hasProp (o : FragmentObj) (k : String) : Bool := (o.lookup k).isSome

/-- `obj[k]`: `none` models `undefined`. -/
def getProp (o : FragmentObj) (k : String) : Option String := o.lookup k

/-- `_isCallback(obj)`, lines 423-427: the object has an
`error_description`, `auth_token` (ACCESS_TOKEN) or `id_token` field. -/
def isCallbackFragment (o : FragmentObj) : Bool :=
  hasProp o "error_description" || hasProp o "auth_token" || hasProp o "id_token"

/-- The `requestInfo` record attached by `_getRequestInfo`. -/
structure RequestInfo where
  valid : Bool
  stateMatch : Bool
  stateResponse : String
  requestType : String
deriving DecidableEq

/-- `_getRequestInfo(obj)`, lines 380-415: starts from an all-default
record; when the object is a callback it is marked valid, the echoed
`state` is copied (returning early if absent), and when that state equals
the persisted `azure.state.login` value the request is typed `LOGIN` with
`stateMatch` true. -/
def getRequestInfo (o : FragmentObj) (s : Storage) : RequestInfo :=
  if isCallbackFragment o then
    match getProp o "state" with
    | none => ⟨true, false, "", "UNKNOWN"⟩
    | some st =>
      if sget s STATE_LOGIN = some st then ⟨true, true, st, "LOGIN"⟩
      else ⟨true, false, st, "UNKNOWN"⟩
  else ⟨false, false, "", "UNKNOWN"⟩

/-- Result of `authorize(callback)`. -/
structure AuthorizeResult where
  storage : Storage
  writes : List (String × String)
  posts : List Post
  callbackCalls : List (JsVal × JsVal)
  actionInProgress : Bool
  result : MethodOutcome
deriving DecidableEq

/-- `authorize(callback)`, lines 166-223, applied to the already-parsed
fragment object, with a valid callback supplied (an absent callback throws
at lines 168-170).  `loginUri` and `contexts` are
`this.config.authorizationServiceLoginUri` and
`this.config.authorizationContexts`.

Branches: not a callback — no effect; `error_description` present — the
`error` and `error_description` values are persisted (an absent `error`
stores the string coercion of `undefined`) and for a LOGIN request the
in-progress flag clears; otherwise with a matching state the `id_token`
value is read, the callback is invoked with an error when it is falsy
(line 196, without returning), and the POST to the login-exchange endpoint
is issued unconditionally (lines 202-211); otherwise the Invalid State
error is persisted and for a LOGIN request the flag clears (lines
213-219). -/
def authorize (loginUri : String) (contexts : Option (List String))
    (o : FragmentObj) (flag : Bool) (s : Storage) : AuthorizeResult :=
  if isCallbackFragment o then
    let ri := getRequestInfo o s
    if hasProp o "error_description" then
      let w1 := [(ERROR_KEY, jsStringOfOpt (getProp o "error")),
                 (ERROR_DESCRIPTION_KEY, jsStringOfOpt (getProp o "error_description"))]
      ⟨applyWrites s w1, w1, [], [],
        if ri.requestType = "LOGIN" then false else flag, .normal⟩
    else if ri.stateMatch then
      let azureToken := getProp o "id_token"
      let calls :=
        if isFalsyStr azureToken then
          [(JsVal.vstr "authorization not available", JsVal.vfalse)]
        else []
      ⟨s, [], [⟨loginUri, azureToken, contexts⟩], calls, flag, .normal⟩
    else
      let w1 := [(ERROR_KEY, "Invalid State"),
                 (ERROR_DESCRIPTION_KEY, "Invalid State, state: " ++ ri.stateResponse)]
      ⟨applyWrites s w1, w1, [], [],
        if ri.requestType = "LOGIN" then false else flag, .normal⟩
  else ⟨s, [], [], [], flag, .normal⟩

/-! ## Token expiry reads (lines 327-333) -/

/-- Leading run of decimal digits. -/
def takeDigits (cs : List Char) : List Char :=
  cs.takeWhile (fun c => '0' ≤ c && c ≤ '9')

/-- Value of a digit string. -/
def digitsToNat (cs : List Char) : Nat :=
  cs.foldl (fun a c => a * 10 + (c.toNat - 48)) 0

/-- JS `parseInt(s)` in base 10: skip leading whitespace, optional sign,
then the longest leading digit run; `none` models `NaN` (no digits). -/
def parseIntStr (s : String) : Option Int :=
  match s.data.dropWhile Char.isWhitespace with
  | '-' :: rest =>
    let d := takeDigits rest
    if d.isEmpty then none else some (-(digitsToNat d : Int))
  | '+' :: rest =>
    let d := takeDigits rest
    if d.isEmpty then none else some (digitsToNat d : Int)
  | cs =>
    let d := takeDigits cs
    if d.isEmpty then none else some (digitsToNat d : Int)

/-- `parseInt` applied to a `getItem` result, `none` modelling `NaN`
(returned both for a `null` read — `parseInt(null)` is `NaN` — and for a
non-numeric string). -/
def parseIntJs (x : Option String) : Option Int := x.bind parseIntStr

/-- The shared expression
`parseInt(this._get(TOKEN_EXPIRATION)) - Math.floor(Date.now() / 1000)`;
`now` is the current epoch time in seconds, `none` models `NaN`. -/
def tokenExpirationDiff (s : Storage) (now : Int) : Option Int :=
  (parseIntJs (sget s TOKEN_EXPIRATION)).map (fun e => e - now)

/-- `getTokenExpirationInSeconds()`, lines 331-333. -/
def getTokenExpirationInSeconds (s : Storage) (now : Int) : Option Int :=
  tokenExpirationDiff s now

/-- `isTokenExpired()`, lines 327-329: the difference compared with `> 0`
(`NaN > 0` is false). -/
def isTokenExpired (s : Storage) (now : Int) : Bool :=
  match tokenExpirationDiff s now with
  | some d => d > 0
  | none => false

/-! ## _uuid (lines 632-689) -/

/-- Lower-case hexadecimal digit, as produced by `Number.toString(16)`. -/
def hexDigit (n : Nat) : Char :=
  if n < 10 then Char.ofNat (48 + n) else Char.ofNat (87 + n)

/-- `n.toString(16)` restricted to byte values 0-255, the only inputs the
generator passes (entries of a `Uint8Array`). -/
def byteToHex (n : Nat) : List Char :=
  if n < 16 then [hexDigit n] else [hexDigit (n / 16), hexDigit (n % 16)]

/-- `decimal2Hex`, lines 637-643: hex digits padded on the left with `0`
to two characters (the while loop runs at most once for byte inputs). -/
def decimal2Hex (n : Nat) : List Char :=
  let h := byteToHex n
  if h.length < 2 then '0' :: h else h

/-- Line 652-653: `buffer[6] |= 0x40; buffer[6] &= 0x4f`. -/
def fixVersionByte (b : Nat) : Nat := (b ||| 0x40) &&& 0x4f

/-- Line 655-656: `buffer[8] |= 0x80; buffer[8] &= 0xbf`. -/
def fixVariantByte (b : Nat) : Nat := (b ||| 0x80) &&& 0xbf

/-- The crypto path of `_uuid()` (lines 634-673): the sixteen
`getRandomValues` bytes, with bytes 6 and 8 rewritten, formatted as
8-4-4-4-12 hex character groups separated by hyphens. -/
def uuidFromBytes (bytes : Fin 16 → Fin 256) : List Char :=
  decimal2Hex (bytes 0).val ++ decimal2Hex (bytes 1).val ++
  decimal2Hex (bytes 2).val ++ decimal2Hex (bytes 3).val ++ ['-'] ++
  decimal2Hex (bytes 4).val ++ decimal2Hex (bytes 5).val ++ ['-'] ++
  decimal2Hex (fixVersionByte (bytes 6).val) ++ decimal2Hex (bytes 7).val ++ ['-'] ++
  decimal2Hex (fixVariantByte (bytes 8).val) ++ decimal2Hex (bytes 9).val ++ ['-'] ++
  decimal2Hex (bytes 10).val ++ decimal2Hex (bytes 11).val ++
  decimal2Hex (bytes 12).val ++ decimal2Hex (bytes 13).val ++
  decimal2Hex (bytes 14).val ++ decimal2Hex (bytes 15).val

/-- The template string of the fallback path (line 687). -/
def uuidTemplate : List Char :=
  ['x','x','x','x','x','x','x','x','-','x','x','x','x','-','4','x','x','x',
   '-','y','x','x','x','-','x','x','x','x','x','x','x','x','x','x','x','x']

/-- The replacement function `uuid4rnd` (lines 682-685): `r` is the
`Math.random() * 16 | 0` draw (reduced mod 16 in the model to keep the
function total); an `x` becomes the hex digit of `r`, a `y` the hex digit
of `r & 0x3 | 0x8`. -/
def uuid4rnd (c : Char) (r : Nat) : Char :=
  if c = 'x' then hexDigit (r % 16) else hexDigit (((r % 16) &&& 3) ||| 8)

/-- `template.replace(/[xy]/g, uuid4rnd)`: each `x`/`y` consumes the next
random draw in order. -/
def replaceXY : List Char → (Nat → Nat) → Nat → List Char
  | [], _, _ => []
  | c :: cs, rnd, k =>
    if c = 'x' || c = 'y' then uuid4rnd c (rnd k) :: replaceXY cs rnd (k + 1)
    else c :: replaceXY cs rnd k

/-- The fallback path of `_uuid()` (lines 675-688). -/
def uuidFallback (rnd : Nat → Nat) : List Char := replaceXY uuidTemplate rnd 0

/-- Lower-case hexadecimal character. -/
def isLowerHexChar (c : Char) : Bool :=
  ('0' ≤ c && c ≤ '9') || ('a' ≤ c && c ≤ 'f')

/-- The RFC 4122 variant digit: 8, 9, a or b. -/
def isVariantChar (c : Char) : Bool :=
  c = '8' || c = '9' || c = 'a' || c = 'b'

/-- One position of the `xxxxxxxx-xxxx-4xxx-yxxx-xxxxxxxxxxxx` pattern:
`x` is any lower-case hex digit, `y` one of 8/9/a/b, and `4`/`-` are
literal. -/
def templateCheck (t c : Char) : Bool :=
  if t = 'x' then isLowerHexChar c
  else if t = 'y' then isVariantChar c
  else if t = '4' then c = '4'
  else if t = '-' then c = '-'
  else false

/-- Position-wise pattern check of a candidate identifier against a
template (false when the lengths differ). -/
def checkAgainst : List Char → List Char → Bool
  | [], [] => true
  | t :: ts, c :: cs => templateCheck t c && checkAgainst ts cs
  | _, _ => false

/-- The identifier matches `xxxxxxxx-xxxx-4xxx-yxxx-xxxxxxxxxxxx`. -/
def matchesUuidPattern (s : List Char) : Bool := checkAgainst uuidTemplate s

/-! ## Concrete inputs used by closed theorems and witnesses -/

/-- A fully valid configuration: non-empty tenant and app id, both
exchange endpoints present, everything else absent. -/
def validCfg : AuthConfig :=
  ⟨some "contoso", some "app-123", some "https://svc.example.com/login",
   some "https://svc.example.com/renew", none, none, none, none, none⟩

/-- A configuration whose tenant id is absent. -/
def missingTenantCfg : AuthConfig :=
  ⟨none, some "app-123", some "https://svc.example.com/login",
   some "https://svc.example.com/renew", none, none, none, none, none⟩

/-- Concrete browser state: current page URL with a query string and a
fragment, both storage backends available. -/
def w0 : Window := ⟨"https://app.example.com/page?x=1#frag", true, true⟩

/-- `validCfg` after the constructor's defaulting (lines 116-138). -/
def validCfgDefaulted : AuthConfig :=
  ⟨some "contoso", some "app-123", some "https://svc.example.com/login",
   some "https://svc.example.com/renew", some defaultAzureInstance,
   some "https://app.example.com/page", some "https://app.example.com/page",
   some "localStorage", none⟩

/-! ## Claim theorems -/

/-- C1: the claim says that for a configuration with non-empty tenant id,
application id and both exchange endpoints, the first construction
succeeds, defaulting the storage selector to local persistence, the
instance URL to the well-known provider endpoint, and the redirect URIs to
the current page URL stripped of query string and fragment.  The code
applies exactly those defaults (visible in the registered singleton), but
then line 140 reads the undeclared identifier `logoutGlobalAzure` and the
construction always throws a `ReferenceError` instead of succeeding. -/
theorem construct_first_valid_throws_referenceError :
    construct validCfg none w0 =
      ⟨.threw (.refError "logoutGlobalAzure is not defined"),
       some ⟨validCfgDefaulted, false, some defaultAzureInstance, none⟩, []⟩ := by
  decide

/-- C2: the claim says `logout()` removes every namespaced storage key so
that a subsequent `getToken()` returns no value.  In the code the purge
loop body reads `this.STORAGE['key']` (line 343), but instances have no
`STORAGE` property, so the first iteration throws a `TypeError`: no key is
removed, the storage is unchanged, and `getToken()` afterwards returns
exactly what it returned before. -/
theorem logout_throws_and_removes_nothing (g cb : Bool) (s : Storage) :
    (logout g cb s).result =
      .threw (.typeError "Cannot read properties of undefined (reading 'key')") ∧
    (logout g cb s).storage = s ∧
    getToken (logout g cb s).storage = getToken s :=
  ⟨rfl, rfl, rfl⟩

/-- C7: for every configuration whose tenant id is missing or blank, whose
application id is missing or blank, or where either exchange endpoint is
missing, a first construction (empty singleton slot) throws one of the
four descriptive validation errors of lines 100-114, and performs no
storage operation (the storage probe at lines 144-157 comes after
validation; the constructor performs no network access at all). -/
theorem construct_missing_required_throws
    (cfg : AuthConfig) (w : Window)
    (h : isBlankStr cfg.azureTenant = true ∨ isBlankStr cfg.azureAppID = true ∨
         isFalsyStr cfg.authorizationServiceLoginUri = true ∨
         isFalsyStr cfg.authorizationServiceRenewUri = true) :
    (∃ m, (construct cfg none w).result = .threw (.jsErr m)) ∧
    (construct cfg none w).storageOps = [] := by
  unfold construct
  by_cases h1 : isBlankStr cfg.azureTenant = true
  · simp [h1]
  · by_cases h2 : isBlankStr cfg.azureAppID = true
    · simp [h1, h2]
    · by_cases h3 : isFalsyStr cfg.authorizationServiceLoginUri = true
      · simp [h1, h2, h3]
      · by_cases h4 : isFalsyStr cfg.authorizationServiceRenewUri = true
        · simp [h1, h2, h3, h4]
        · exact absurd h (by simp [h1, h2, h3, h4])

/-- Witness for C7 at the concrete tenantless configuration. -/
theorem construct_missing_required_throws_witness :
    (isBlankStr missingTenantCfg.azureTenant = true ∨
     isBlankStr missingTenantCfg.azureAppID = true ∨
     isFalsyStr missingTenantCfg.authorizationServiceLoginUri = true ∨
     isFalsyStr missingTenantCfg.authorizationServiceRenewUri = true) ∧
    ((∃ m, (construct missingTenantCfg none w0).result = .threw (.jsErr m)) ∧
     (construct missingTenantCfg none w0).storageOps = []) :=
  ⟨Or.inl (by decide),
   construct_missing_required_throws missingTenantCfg w0 (Or.inl (by decide))⟩

/-- C10: the singleton slot is written (lines 89-92) before the validation
of lines 100-114 runs, so a first construction with a blank tenant id both
throws and leaves the half-initialized instance registered; every later
construction — with any configuration whatsoever, including a fully valid
one — returns that registered instance unchanged, performing no
validation, no defaulting and no storage operation. -/
theorem singleton_registered_before_validation
    (cfg1 cfg2 : AuthConfig) (w w2 : Window)
    (h : isBlankStr cfg1.azureTenant = true) :
    (construct cfg1 none w).result = .threw (.jsErr "Tenant must be defined") ∧
    (construct cfg1 none w).singleton = some ⟨cfg1, false, none, none⟩ ∧
    construct cfg2 (some ⟨cfg1, false, none, none⟩) w2 =
      ⟨.returned ⟨cfg1, false, none, none⟩, some ⟨cfg1, false, none, none⟩, []⟩ := by
  refine ⟨?_, ?_, rfl⟩ <;> simp [construct, h]

/-- Witness for C10: failed first construction with a tenantless
configuration, then a second construction with the fully valid one. -/
theorem singleton_registered_before_validation_witness :
    (isBlankStr missingTenantCfg.azureTenant = true) ∧
    ((construct missingTenantCfg none w0).result =
        .threw (.jsErr "Tenant must be defined") ∧
     (construct missingTenantCfg none w0).singleton =
        some ⟨missingTenantCfg, false, none, none⟩ ∧
     construct validCfg (some ⟨missingTenantCfg, false, none, none⟩) w0 =
        ⟨.returned ⟨missingTenantCfg, false, none, none⟩,
         some ⟨missingTenantCfg, false, none, none⟩, []⟩) :=
  ⟨by decide,
   singleton_registered_before_validation missingTenantCfg validCfg w0 w0 (by decide)⟩

/-- C3: the claim says two successive `login()` calls trigger exactly one
navigation and one set of persisted state values, the second call being a
no-op because the first set the action-in-progress flag.  In the code the
flag is only set at line 289, after
`this._generateAzureLoginURL('id_token', null)` at line 288 has already
thrown a `TypeError` (its `params` argument is `null`), so: each call
persists a fresh set of the five state values, neither call navigates, and
the second call is not suppressed. -/
theorem login_twice_persists_twice_navigates_never
    (inst tenant href : String) (start : Option String)
    (u1 u2 u3 u4 : String) (s : Storage) :
    (login inst tenant start u1 u2 false s href).navs = [] ∧
    (login inst tenant start u1 u2 false s href).result =
      .threw (.typeError "Cannot read properties of null (reading 'azureAppID')") ∧
    (login inst tenant start u1 u2 false s href).actionInProgress = false ∧
    (login inst tenant start u1 u2 false s href).writes =
      loginWrites start href u1 u2 ∧
    (login inst tenant start u3 u4
      (login inst tenant start u1 u2 false s href).actionInProgress
      (login inst tenant start u1 u2 false s href).storage href).navs = [] ∧
    (login inst tenant start u3 u4
      (login inst tenant start u1 u2 false s href).actionInProgress
      (login inst tenant start u1 u2 false s href).storage href).writes =
      loginWrites start href u3 u4 :=
  ⟨rfl, rfl, rfl, rfl, rfl, rfl⟩

/-- C4: the claim says that with a persisted authorization token and a
configured renew endpoint, `renew(callback)` POSTs the token to the renew
endpoint.  In the code, line 238 reads the token under
`this.CONSTANTS.USER_TOKEN`, a property that does not exist (the key is
`CONSTANTS.STORAGE.USER_TOKEN`), so the callback is first invoked with
"authorization token not found"; then line 250 evaluates
`this._config.urls.renew` on the never-assigned `this._config` and throws
a `TypeError` before any XMLHttpRequest is created: no POST is ever
issued. -/
theorem renew_throws_before_post (s : Storage)
    (h : sget s "undefined" = none) :
    (renew s).posts = [] ∧
    (renew s).callbackCalls =
      [(JsVal.vstr "authorization token not found", JsVal.vnull)] ∧
    (renew s).result =
      .threw (.typeError "Cannot read properties of undefined (reading 'urls')") ∧
    (renew s).actionInProgress = true := by
  simp [renew, CONSTANTS_USER_TOKEN, jsStringOfOpt, h, isFalsyStr]

/-- Concrete renewal state: an authorization token is persisted under the
correct key. -/
def renewStorage : Storage := [("user_token", "tok-123")]

/-- Witness for C4 at a state holding a persisted token. -/
theorem renew_throws_before_post_witness :
    sget renewStorage "undefined" = none ∧
    ((renew renewStorage).posts = [] ∧
     (renew renewStorage).callbackCalls =
       [(JsVal.vstr "authorization token not found", JsVal.vnull)] ∧
     (renew renewStorage).result =
       .threw (.typeError "Cannot read properties of undefined (reading 'urls')") ∧
     (renew renewStorage).actionInProgress = true) :=
  ⟨by decide, renew_throws_before_post renewStorage (by decide)⟩

/-- C8: for every stored expiry value (an integer-valued string) and
current time, `getTokenExpirationInSeconds()` returns the stored expiry
minus the current epoch seconds, and `isTokenExpired()` returns true
exactly when that difference is strictly positive — that is, while time
remains, not when expired. -/
theorem token_expiration_semantics (s : Storage) (now e : Int) (str : String)
    (hget : sget s TOKEN_EXPIRATION = some str)
    (hparse : parseIntStr str = some e) :
    getTokenExpirationInSeconds s now = some (e - now) ∧
    (isTokenExpired s now = true ↔ e - now > 0) := by
  simp [getTokenExpirationInSeconds, isTokenExpired, tokenExpirationDiff,
    parseIntJs, hget, hparse]

/-- Concrete expiry state for the C8 witness. -/
def expiryStorage : Storage := [("token_exp", "1000")]

/-- Witness for C8 at a stored expiry of 1000 and a current time of 900. -/
theorem token_expiration_semantics_witness :
    (sget expiryStorage TOKEN_EXPIRATION = some "1000" ∧
     parseIntStr "1000" = some 1000) ∧
    (getTokenExpirationInSeconds expiryStorage 900 = some (1000 - 900) ∧
     (isTokenExpired expiryStorage 900 = true ↔ (1000 : Int) - 900 > 0)) :=
  ⟨⟨by decide, by decide⟩,
   token_expiration_semantics expiryStorage 900 1000 "1000" (by decide) (by decide)⟩

/-- A provider callback fragment carrying an access token and a matching
state, but no error field and no ID token. -/
def c5Fragment : FragmentObj := [("auth_token", "atk"), ("state", "s-1")]

/-- Storage holding the matching persisted login state for `c5Fragment`. -/
def c5Storage : Storage := [(STATE_LOGIN, "s-1")]

/-- C5 counterexample: the claim says that on a callback fragment with no
error, a matching state and no ID token, `authorize` invokes the callback
with an error and stops with no POST to the login-exchange endpoint.  At
this concrete input the callback is indeed invoked with an error, but the
`if (!azureToken)` check at lines 195-197 does not return, so the POST is
still issued (with the token field `undefined`). -/
theorem authorize_missing_idtoken_still_posts :
    (authorize "https://svc.example.com/login" none c5Fragment false c5Storage).posts ≠ [] ∧
    (authorize "https://svc.example.com/login" none c5Fragment false c5Storage).posts =
      [⟨"https://svc.example.com/login", none, none⟩] ∧
    (authorize "https://svc.example.com/login" none c5Fragment false c5Storage).callbackCalls =
      [(JsVal.vstr "authorization not available", JsVal.vfalse)] := by
  decide

/-- C5 amended: on a callback fragment with no error field, a matching
CSRF state and no ID-token field, `authorize` invokes the callback with
the error "authorization not available" but does not stop: one POST to the
login-exchange endpoint is still issued, with the authorization token
absent (`undefined`) in its body. -/
theorem authorize_missing_idtoken_callback_and_post
    (loginUri : String) (contexts : Option (List String)) (o : FragmentObj)
    (flag : Bool) (s : Storage)
    (hcb : isCallbackFragment o = true)
    (herr : hasProp o "error_description" = false)
    (hst : (getRequestInfo o s).stateMatch = true)
    (hid : hasProp o "id_token" = false) :
    (authorize loginUri contexts o flag s).callbackCalls =
      [(JsVal.vstr "authorization not available", JsVal.vfalse)] ∧
    (authorize loginUri contexts o flag s).posts = [⟨loginUri, none, contexts⟩] := by
  have hidp : getProp o "id_token" = none := by
    unfold hasProp at hid
    unfold getProp
    cases h : o.lookup "id_token" with
    | none => rfl
    | some v => rw [h] at hid; simp at hid
  simp [authorize, hcb, herr, hst, hidp, isFalsyStr]

/-- Witness for the amended C5 at the concrete fragment and storage. -/
theorem authorize_missing_idtoken_callback_and_post_witness :
    (isCallbackFragment c5Fragment = true ∧
     hasProp c5Fragment "error_description" = false ∧
     (getRequestInfo c5Fragment c5Storage).stateMatch = true ∧
     hasProp c5Fragment "id_token" = false) ∧
    ((authorize "https://svc.example.com/login" none c5Fragment false c5Storage).callbackCalls =
       [(JsVal.vstr "authorization not available", JsVal.vfalse)] ∧
     (authorize "https://svc.example.com/login" none c5Fragment false c5Storage).posts =
       [⟨"https://svc.example.com/login", none, none⟩]) :=
  ⟨⟨by decide, by decide, by decide, by decide⟩,
   authorize_missing_idtoken_callback_and_post "https://svc.example.com/login" none
     c5Fragment false c5Storage (by decide) (by decide) (by decide) (by decide)⟩

/-- C6: on a callback fragment with no error field whose echoed state does
not match the persisted login state, `authorize` persists the error
"Invalid State" and a description containing the mismatched value, issues
no network call, and never invokes the callback. -/
theorem authorize_state_mismatch_no_network
    (loginUri : String) (contexts : Option (List String)) (o : FragmentObj)
    (flag : Bool) (s : Storage) (v : String)
    (hcb : isCallbackFragment o = true)
    (herr : hasProp o "error_description" = false)
    (hv : getProp o "state" = some v)
    (hmm : sget s STATE_LOGIN ≠ some v) :
    (authorize loginUri contexts o flag s).writes =
      [(ERROR_KEY, "Invalid State"),
       (ERROR_DESCRIPTION_KEY, "Invalid State, state: " ++ v)] ∧
    (authorize loginUri contexts o flag s).posts = [] ∧
    (authorize loginUri contexts o flag s).callbackCalls = [] := by
  have hri : getRequestInfo o s = ⟨true, false, v, "UNKNOWN"⟩ := by
    unfold getRequestInfo
    simp [hcb, hv, hmm]
  simp [authorize, hcb, herr, hri]

/-- A provider callback fragment whose echoed state disagrees with the
persisted login state. -/
def c6Fragment : FragmentObj := [("id_token", "idt"), ("state", "evil")]

/-- Storage holding a different persisted login state. -/
def c6Storage : Storage := [(STATE_LOGIN, "good")]

/-- Witness for C6 at the concrete mismatched fragment. -/
theorem authorize_state_mismatch_no_network_witness :
    (isCallbackFragment c6Fragment = true ∧
     hasProp c6Fragment "error_description" = false ∧
     getProp c6Fragment "state" = some "evil" ∧
     sget c6Storage STATE_LOGIN ≠ some "evil") ∧
    ((authorize "https://svc.example.com/login" none c6Fragment false c6Storage).writes =
       [(ERROR_KEY, "Invalid State"),
        (ERROR_DESCRIPTION_KEY, "Invalid State, state: " ++ "evil")] ∧
     (authorize "https://svc.example.com/login" none c6Fragment false c6Storage).posts = [] ∧
     (authorize "https://svc.example.com/login" none c6Fragment false c6Storage).callbackCalls = []) :=
  ⟨⟨by decide, by decide, by decide, by decide⟩,
   authorize_state_mismatch_no_network "https://svc.example.com/login" none
     c6Fragment false c6Storage "evil" (by decide) (by decide) (by decide) (by decide)⟩

/-! ## Helper lemmas for the UUID pattern (C9) -/

set_option maxRecDepth 40000

/-- Two pattern `x` positions accept the hex pair of any byte. -/
theorem chunkXX (b : Fin 256) : checkAgainst ['x', 'x'] (decimal2Hex b.val) = true := by
  revert b; decide

/-- The version chunk: after the line 652-653 fix-up the first digit is
literally `4`. -/
theorem chunkVer (b : Fin 256) :
    checkAgainst ['4', 'x'] (decimal2Hex (fixVersionByte b.val)) = true := by
  revert b; decide

/-- The variant chunk: after the line 655-656 fix-up the first digit is
8, 9, a or b. -/
theorem chunkVar (b : Fin 256) :
    checkAgainst ['y', 'x'] (decimal2Hex (fixVariantByte b.val)) = true := by
  revert b; decide

/-- A literal hyphen position. -/
theorem chunkDash : checkAgainst ['-'] ['-'] = true := by decide

/-- The version nibble after the fix-up is 4, for every byte. -/
theorem fixVersionByte_nibble (b : Fin 256) : fixVersionByte b.val / 16 = 4 := by
  revert b; decide

/-- The top two bits after the fix-up are `10`, for every byte. -/
theorem fixVariantByte_bits (b : Fin 256) : fixVariantByte b.val / 64 = 2 := by
  revert b; decide

/-- Pattern checks concatenate. -/
theorem checkAgainst_append {t1 s1 t2 s2 : List Char}
    (h1 : checkAgainst t1 s1 = true) (h2 : checkAgainst t2 s2 = true) :
    checkAgainst (t1 ++ t2) (s1 ++ s2) = true := by
  induction t1 generalizing s1 with
  | nil =>
    cases s1 with
    | nil => simpa using h2
    | cons c cs => simp [checkAgainst] at h1
  | cons c cs ih =>
    cases s1 with
    | nil => simp [checkAgainst] at h1
    | cons d ds =>
      simp only [checkAgainst, Bool.and_eq_true] at h1
      simp only [List.cons_append, checkAgainst, Bool.and_eq_true]
      exact ⟨h1.1, ih h1.2⟩

/-- The crypto path produces a pattern match for every byte sequence. -/
theorem uuidFromBytes_matches (bytes : Fin 16 → Fin 256) :
    matchesUuidPattern (uuidFromBytes bytes) = true := by
  have hsplit : uuidTemplate =
      ['x','x'] ++ (['x','x'] ++ (['x','x'] ++ (['x','x'] ++ (['-'] ++
      (['x','x'] ++ (['x','x'] ++ (['-'] ++ (['4','x'] ++ (['x','x'] ++
      (['-'] ++ (['y','x'] ++ (['x','x'] ++ (['-'] ++ (['x','x'] ++
      (['x','x'] ++ (['x','x'] ++ (['x','x'] ++ (['x','x'] ++
      ['x','x'])))))))))))))))))) := by decide
  unfold matchesUuidPattern uuidFromBytes
  rw [hsplit]
  simp only [List.append_assoc]
  exact checkAgainst_append (chunkXX (bytes 0))
    (checkAgainst_append (chunkXX (bytes 1))
    (checkAgainst_append (chunkXX (bytes 2))
    (checkAgainst_append (chunkXX (bytes 3))
    (checkAgainst_append chunkDash
    (checkAgainst_append (chunkXX (bytes 4))
    (checkAgainst_append (chunkXX (bytes 5))
    (checkAgainst_append chunkDash
    (checkAgainst_append (chunkVer (bytes 6))
    (checkAgainst_append (chunkXX (bytes 7))
    (checkAgainst_append chunkDash
    (checkAgainst_append (chunkVar (bytes 8))
    (checkAgainst_append (chunkXX (bytes 9))
    (checkAgainst_append chunkDash
    (checkAgainst_append (chunkXX (bytes 10))
    (checkAgainst_append (chunkXX (bytes 11))
    (checkAgainst_append (chunkXX (bytes 12))
    (checkAgainst_append (chunkXX (bytes 13))
    (checkAgainst_append (chunkXX (bytes 14))
    (chunkXX (bytes 15))))))))))))))))))))

/-- An `x` replacement is a lower-case hex digit. -/
theorem isLowerHexChar_hexDigit_mod (n : Nat) :
    isLowerHexChar (hexDigit (n % 16)) = true := by
  have h16 : ∀ m : Fin 16, isLowerHexChar (hexDigit m.val) = true := by decide
  exact h16 ⟨n % 16, Nat.mod_lt _ (by norm_num)⟩

/-- A `y` replacement is 8, 9, a or b. -/
theorem isVariantChar_hexDigit (n : Nat) :
    isVariantChar (hexDigit (((n % 16) &&& 3) ||| 8)) = true := by
  have h16 : ∀ m : Fin 16, isVariantChar (hexDigit ((m.val &&& 3) ||| 8)) = true := by
    decide
  exact h16 ⟨n % 16, Nat.mod_lt _ (by norm_num)⟩

/-- Replacing the `x`/`y` positions of a well-formed template yields a
string that checks against that template, whatever the random draws. -/
theorem replaceXY_checkAgainst (t : List Char) (rnd : Nat → Nat) (k : Nat)
    (h : t.all (fun c => c = 'x' || c = 'y' || c = '4' || c = '-') = true) :
    checkAgainst t (replaceXY t rnd k) = true := by
  induction t generalizing k with
  | nil => rfl
  | cons c cs ih =>
    simp only [List.all_cons, Bool.and_eq_true, Bool.or_eq_true, decide_eq_true_eq]
      at h
    obtain ⟨hc, hcs⟩ := h
    have hcs' : cs.all (fun c => c = 'x' || c = 'y' || c = '4' || c = '-') = true := by
      simpa using hcs
    rcases hc with ((hx | hy) | h4) | hd
    · subst hx
      simp [replaceXY, checkAgainst, templateCheck, uuid4rnd,
        isLowerHexChar_hexDigit_mod, ih _ hcs']
    · subst hy
      simp [replaceXY, checkAgainst, templateCheck, uuid4rnd,
        isVariantChar_hexDigit, ih _ hcs']
    · subst h4
      simp [replaceXY, checkAgainst, templateCheck, ih _ hcs']
    · subst hd
      simp [replaceXY, checkAgainst, templateCheck, ih _ hcs']

/-- C9: for every sequence of sixteen random bytes, and for every sequence
of pseudo-random draws in the fallback path, the generated identifier
matches `xxxxxxxx-xxxx-4xxx-yxxx-xxxxxxxxxxxx` in lower-case hex with the
`y` digit drawn from 8/9/a/b; moreover the version nibble of byte 6 is
forced to 4 and the two most significant bits of byte 8 are forced to
`10`. -/
theorem uuid_matches_v4_pattern (bytes : Fin 16 → Fin 256) (rnd : Nat → Nat) :
    matchesUuidPattern (uuidFromBytes bytes) = true ∧
    matchesUuidPattern (uuidFallback rnd) = true ∧
    fixVersionByte (bytes 6).val / 16 = 4 ∧
    fixVariantByte (bytes 8).val / 64 = 2 :=
  ⟨uuidFromBytes_matches bytes,
   replaceXY_checkAgainst uuidTemplate rnd 0 (by decide),
   fixVersionByte_nibble (bytes 6),
   fixVariantByte_bits (bytes 8)⟩

end AzureAuth
